import Mathlib

/-!
Shallow embedding of the chat-scoped RAG service
(`src/backend/database.py`, `src/backend/document_processor.py`,
`src/backend/rag_system.py`, `src/backend/main.py`).

External collaborators (PDF/DOCX extraction, UTF-8 decoding, the
sentence-transformer embedding model, the pgvector `<->` distance
operator, the ollama chat client, and the langchain text splitter) are
modelled as parameters of an environment record `Env`, or, where the
spec pins down their behaviour, as definitions modelled from the spec.
Database state is an explicit record of row lists; SQLAlchemy commits
are the points where the persisted `DB` value is updated, and a raised
exception between commits leaves the persisted state at the last
committed value.
-/

namespace RAGSpec

/-- Row of the `chats` table (`database.py`, class `Chat`).  UUIDs are
modelled as natural numbers and timestamps as naturals. -/
structure Chat where
  id : Nat
  title : String
  updated_at : Nat
deriving DecidableEq, Repr

/-- Row of the `chat_messages` table (`database.py`, class `ChatMessage`). -/
structure ChatMessage where
  chat_id : Nat
  message : String
  response : String
deriving DecidableEq, Repr

/-- Row of the `documents` table (`database.py`, class `Document`). -/
structure Document where
  id : Nat
  chat_id : Nat
  filename : String
  content : String
deriving DecidableEq, Repr

/-- Row of the `document_chunks` table (`database.py`, class
`DocumentChunk`).  Embedding vectors are lists of rationals. -/
structure DocumentChunk where
  chat_id : Nat
  document_id : Nat
  chunk_text : String
  chunk_index : Nat
  embedding : List ℚ
deriving DecidableEq, Repr

/-- The persisted database state: one list of rows per table. -/
structure DB where
  chats : List Chat
  documents : List Document
  chunks : List DocumentChunk
  messages : List ChatMessage
deriving DecidableEq, Repr

/-- Removal of leading and trailing whitespace, the semantics of the
Python `str.strip()` call in `chunk_text`. -/
def pyStrip (s : String) : String :=
  String.mk
    (((s.data.dropWhile Char.isWhitespace).reverse.dropWhile
        Char.isWhitespace).reverse)

/-- Suffix test on strings, the semantics of the Python
`str.endswith` calls that dispatch on the file extension. -/
def strEndsWith (s suffix : String) : Bool :=
  suffix.data.isSuffixOf s.data

/-- Splitting a character list on a non-empty separator `s :: ss`,
Python `str.split(sep)` semantics.  The fuel argument (instantiated
with the text length) keeps the recursion structural. -/
def splitOnAux (s : Char) (ss : List Char) :
    Nat → List Char → List Char → List (List Char)
  | _, [], acc => [acc.reverse]
  | 0, text, acc => [acc.reverse ++ text]
  | fuel+1, c :: cs, acc =>
    if c = s ∧ ss.isPrefixOf cs then
      acc.reverse :: splitOnAux s ss fuel (cs.drop ss.length) []
    else
      splitOnAux s ss fuel cs (c :: acc)

/-- Splitting a character list on a separator; the empty separator
returns the text unsplit (the caller treats it as character-level
splitting). -/
def splitOnChars : List Char → List Char → List (List Char)
  | [], text => [text]
  | s :: ss, text => splitOnAux s ss text.length text []

/-- Splitting one level of text on a single separator.  The empty
separator means character-level splitting, the finest level of the
separator list `["\n\n", "\n", ". ", " ", ""]` fixed in
`DocumentProcessor.__init__`. -/
def splitBySep (sep : String) (text : String) : List String :=
  if sep = "" then text.data.map (fun c => String.mk [c])
  else (splitOnChars sep.data text.data).map String.mk

/-- Modelled from the spec: the recursive separator-based splitting of
the external langchain `RecursiveCharacterTextSplitter` (not part of
src/).  Spec section 4.1: at each level, text is split on the given
separator; any resulting piece still exceeding `max_size` is
recursively split using the next separator in the list. -/
def recursiveSplit (maxSize : Nat) : List String → String → List String
  | [], text => [text]
  | sep :: rest, text =>
    ((splitBySep sep text).map fun p =>
      if p.length ≤ maxSize then [p] else recursiveSplit maxSize rest p).flatten

/-- Last `n` characters of a string, used for the overlap carried from
one chunk into the next. -/
def takeRight (s : String) (n : Nat) : String :=
  String.mk (s.data.drop (s.data.length - n))

/-- Modelled from the spec (section 4.1): pieces are reassembled into
chunks of at most `max_size` characters, with each chunk after the
first beginning `overlap` characters before the end of the previous
chunk. -/
def mergeWithOverlap (maxSize overlap : Nat) : List String → String → List String
  | [], cur => if cur = "" then [] else [cur]
  | p :: ps, cur =>
    if cur.length + p.length ≤ maxSize then
      mergeWithOverlap maxSize overlap ps (cur ++ p)
    else
      cur :: mergeWithOverlap maxSize overlap ps (takeRight cur overlap ++ p)

/-- Modelled from the spec: the external splitter object constructed in
`DocumentProcessor.__init__` with the fixed separator list
`["\n\n", "\n", ". ", " ", ""]`, parameterised by `chunk_size` and
`chunk_overlap` (defaults 1000 and 200). -/
def specSplitText (maxSize overlap : Nat) (text : String) : List String :=
  mergeWithOverlap maxSize overlap
    (recursiveSplit maxSize ["\n\n", "\n", ". ", " ", ""] text) ""

/-- Embedding of `DocumentProcessor.chunk_text`: run the splitter, then
keep exactly the chunks whose stripped length is strictly greater than
50 (`len(chunk.strip()) > 50` in the source).  The splitter itself is a
parameter, standing for `self.text_splitter.split_text`. -/
def chunk_text (splitText : String → List String) (text : String) : List String :=
  (splitText text).filter (fun c => 50 < (pyStrip c).length)

/-- One retrieval result, the dictionary built by
`RAGSystem.get_relevant_chunks` (keys `text`, `chunk_index`, `filename`,
`similarity_score`). -/
structure RChunk where
  text : String
  chunk_index : Nat
  filename : String
  similarity_score : ℚ
deriving DecidableEq, Repr

/-- The external collaborators of the core, passed as an explicit
environment: the PyPDF2 and python-docx extractors, UTF-8 decoding of
the uploaded bytes, the langchain splitter held by the module-level
`DocumentProcessor`, the sentence-transformer embedder
(`RAGSystem.get_embedding`, which can raise), the pgvector distance
operator `<->` used by the similarity SQL (Euclidean distance on the
stored vectors), whether `db.execute` of that SQL succeeds, the ollama
chat call (which can raise), and the current clock used for
`datetime.utcnow()`.  Fallible calls return `Except String`. -/
structure Env where
  processPdf : String → Except String String
  processDocx : String → Except String String
  decodeUtf8 : String → Except String String
  split : String → List String
  embed : String → Except String (List ℚ)
  dist : List ℚ → List ℚ → ℚ
  searchOk : Bool
  chat : String → Except String String
  now : Nat

/-- Filename joined onto a chunk row, as in the SQL
`JOIN documents d ON dc.document_id = d.id`. -/
def chunkFilename (db : DB) (c : DocumentChunk) : Option String :=
  (db.documents.find? (fun d => d.id == c.document_id)).map (·.filename)

/-- Row set selected by the similarity SQL in
`RAGSystem.get_relevant_chunks`: chunks joined with their document,
restricted to `dc.chat_id = :chat_id`, ordered by
`dc.embedding <-> :query_embedding` ascending, limited to `top_k`. -/
def primaryRows (env : Env) (db : DB) (chatId : Nat) (qv : List ℚ)
    (top_k : Nat) : List (DocumentChunk × String) :=
  (List.insertionSort
    (fun p₁ p₂ => env.dist p₁.1.embedding qv ≤ env.dist p₂.1.embedding qv)
    (db.chunks.filterMap fun c =>
      if c.chat_id == chatId then (chunkFilename db c).map (fun fn => (c, fn))
      else none)).take top_k

/-- Result dictionaries of the primary similarity path, with
`similarity_score = 1 - distance` as in the source. -/
def primaryResult (env : Env) (db : DB) (chatId : Nat) (qv : List ℚ)
    (top_k : Nat) : List RChunk :=
  (primaryRows env db chatId qv top_k).map fun p =>
    ⟨p.1.chunk_text, p.1.chunk_index, p.2, 1 - env.dist p.1.embedding qv⟩

/-- Chunk rows fetched by the fallback query
`db.query(DocumentChunk).filter(DocumentChunk.chat_id == ...).limit(top_k)`,
in insertion order. -/
def fallbackRows (db : DB) (chatId : Nat) (top_k : Nat) : List DocumentChunk :=
  (db.chunks.filter (fun c => c.chat_id == chatId)).take top_k

/-- Result dictionaries of the fallback path: filename `"unknown"` and
the fixed sentinel score `0.5`. -/
def fallbackResult (db : DB) (chatId : Nat) (top_k : Nat) : List RChunk :=
  (fallbackRows db chatId top_k).map fun c =>
    ⟨c.chunk_text, c.chunk_index, "unknown", 1/2⟩

/-- Embedding of `RAGSystem.get_relevant_chunks`.  The `try` block
succeeds exactly when `get_embedding` returns a vector and the
similarity SQL executes (`env.searchOk`); any exception is caught and
answered by the fallback query scoped to the same chat. -/
def get_relevant_chunks (env : Env) (query : String) (chatId : Nat)
    (db : DB) (top_k : Nat) : List RChunk :=
  match env.embed query, env.searchOk with
  | .ok qv, true => primaryResult env db chatId qv top_k
  | _, _ => fallbackResult db chatId top_k

/-- Context block built by `RAGSystem.generate_response`: for each
chunk, `Document i+1 (filename):` then the chunk text and a blank
line. -/
def buildContext (chunks : List RChunk) : String :=
  String.join ((chunks.enum).map fun p =>
    "Document " ++ toString (p.1 + 1) ++ " (" ++ p.2.filename ++ "):\n"
      ++ p.2.text ++ "\n\n")

/-- Prompt assembled by `RAGSystem.generate_response`, including the
grounding instruction. -/
def buildPrompt (query : String) (chunks : List RChunk) : String :=
  "Based on the following context, please answer the question. "
    ++ "If the answer cannot be found in the context, please say so.\n\n"
    ++ "Context:\n" ++ buildContext chunks ++ "\n\nQuestion: " ++ query
    ++ "\n\nAnswer:"

/-- Embedding of `RAGSystem.generate_response`: call the model on the
assembled prompt; any exception is caught and replaced by the apology
string embedding the failure reason. -/
def generate_response (env : Env) (query : String) (chunks : List RChunk) :
    String :=
  match env.chat (buildPrompt query chunks) with
  | .ok content => content
  | .error e =>
    "I apologize, but I encountered an error while generating a response: "
      ++ e

/-- One file of an upload batch: its filename and its raw bytes
(modelled as a string). -/
structure UploadFile where
  filename : String
  content : String
deriving DecidableEq, Repr

/-- Entry of the `skipped` list returned by `upload_documents`. -/
structure SkipInfo where
  filename : String
  reason : String
deriving DecidableEq, Repr

/-- Entry of the `uploaded` list returned by `upload_documents`. -/
structure UploadInfo where
  id : Nat
  filename : String
  chunks_count : Nat
deriving DecidableEq, Repr

/-- Extension dispatch of `upload_documents`: `.pdf` goes to
`process_pdf`, `.docx` to `process_docx`, `.txt` to UTF-8 decoding;
`none` means an unsupported file type. -/
def extractText (env : Env) (f : UploadFile) : Option (Except String String) :=
  if strEndsWith f.filename ".pdf" then some (env.processPdf f.content)
  else if strEndsWith f.filename ".docx" then some (env.processDocx f.content)
  else if strEndsWith f.filename ".txt" then some (env.decodeUtf8 f.content)
  else none

/-- Sequential embedding of the chunks of one document, mirroring the
loop `for i, chunk in enumerate(chunks): embedding = await
rag_system.get_embedding(chunk)`; the first failure aborts. -/
def embedChunks (embed : String → Except String (List ℚ)) :
    List String → Except String (List (List ℚ))
  | [] => .ok []
  | c :: cs =>
    match embed c with
    | .error e => .error e
    | .ok v =>
      match embedChunks embed cs with
      | .error e => .error e
      | .ok vs => .ok (v :: vs)

/-- Chunk rows staged for one document: denormalized `chat_id`, the
parent document id, the chunk text, its position `i` in the chunk list,
and its embedding. -/
def buildChunks (chatId docId : Nat) (chunks : List String)
    (embs : List (List ℚ)) : List DocumentChunk :=
  ((chunks.zip embs).enum).map fun p => ⟨chatId, docId, p.2.1, p.1, p.2.2⟩

/-- Fresh document id, standing in for `uuid.uuid4()`. -/
def freshDocId (db : DB) : Nat := db.documents.length

/-- Ingestion of one successfully-extracted file by `upload_documents`:
the `Document` row is committed first (`db.add(doc); db.commit()`),
then chunks are embedded and staged and a second `db.commit()` persists
them all at once.  An embedding failure raises after the first commit
and before the second, so it leaves the document persisted with no
chunks. -/
def ingestDocument (env : Env) (db : DB) (chatId : Nat)
    (filename text : String) : DB × Except String UploadInfo :=
  let doc : Document := ⟨freshDocId db, chatId, filename, text⟩
  let db₁ : DB := { db with documents := db.documents ++ [doc] }
  let chunks := chunk_text env.split text
  match embedChunks env.embed chunks with
  | .error e => (db₁, .error e)
  | .ok embs =>
    ({ db₁ with chunks := db.chunks ++ buildChunks chatId doc.id chunks embs },
      .ok ⟨doc.id, filename, chunks.length⟩)

/-- Per-file loop of `upload_documents`.  `existing` is the snapshot of
the filenames of the chat taken once before the loop.  A duplicate filename
or unsupported type appends to `skipped` and continues; an extraction
or embedding exception is re-raised as `HTTPException(500)`, which ends
the whole request — the persisted state stays at the last commit and
the remaining files are never processed. -/
def uploadLoop (env : Env) (chatId : Nat) (existing : List String) :
    DB → List UploadFile → List UploadInfo → List SkipInfo →
    DB × Except String (List UploadInfo × List SkipInfo)
  | db, [], up, sk => (db, .ok (up, sk))
  | db, f :: rest, up, sk =>
    if f.filename ∈ existing then
      uploadLoop env chatId existing db rest up
        (sk ++ [⟨f.filename, "File already exists in this chat"⟩])
    else
      match extractText env f with
      | none =>
        uploadLoop env chatId existing db rest up
          (sk ++ [⟨f.filename, "Unsupported file type"⟩])
      | some (.error e) =>
        (db, .error ("Error processing " ++ f.filename ++ ": " ++ e))
      | some (.ok text) =>
        match ingestDocument env db chatId f.filename text with
        | (db₁, .error e) =>
          (db₁, .error ("Error processing " ++ f.filename ++ ": " ++ e))
        | (db₁, .ok info) =>
          uploadLoop env chatId existing db₁ rest (up ++ [info]) sk

/-- Filenames already present in the chat, the query
`db.query(Document.filename).filter(Document.chat_id == ...)` computed
once before the upload loop. -/
def existingFilenames (db : DB) (chatId : Nat) : List String :=
  (db.documents.filter (fun d => d.chat_id == chatId)).map (·.filename)

/-- Embedding of the `upload_documents` endpoint: verify the chat
exists (else 404), snapshot the filenames of the chat, then run the per-file
loop.  The returned `Except` is the HTTP outcome: `ok` carries the
`uploaded` and `skipped` lists, `error` an `HTTPException` detail. -/
def upload_documents (env : Env) (db : DB) (chatId : Nat)
    (files : List UploadFile) :
    DB × Except String (List UploadInfo × List SkipInfo) :=
  match db.chats.find? (fun c => c.id == chatId) with
  | none => (db, .error "Chat not found")
  | some _ => uploadLoop env chatId (existingFilenames db chatId) db files [] []

/-- The fixed response returned when no chunks are retrieved for the
chat. -/
def noDocsResponse : String :=
  "I don\x27t have any documents uploaded for this chat yet. "
    ++ "Please upload some documents first to ask questions about them."

/-- Body of the JSON answer of the `query` endpoint: the response text
and the `sources` count. -/
structure QueryOut where
  response : String
  sources : Nat
deriving DecidableEq, Repr

/-- Embedding of the `query_documents` endpoint: retrieve relevant
chunks for the chat (default `top_k = 5`); when none, return the fixed
no-documents response without touching the database; otherwise generate
a response, append one `ChatMessage` with `message` equal to the query,
refresh the `updated_at` of the chat, and commit both together. -/
def query_documents (env : Env) (db : DB) (chatId : Nat)
    (query : String) : DB × QueryOut :=
  let relevant := get_relevant_chunks env query chatId db 5
  if relevant.isEmpty then
    (db, ⟨noDocsResponse, 0⟩)
  else
    let resp := generate_response env query relevant
    ({ db with
        messages := db.messages ++ [⟨chatId, query, resp⟩],
        chats := db.chats.map fun c =>
          if c.id == chatId then { c with updated_at := env.now } else c },
      ⟨resp, relevant.length⟩)

/-- A string of `n` copies of the letter a, used for concrete test
texts. -/
def aChars (n : Nat) : String := String.mk (List.replicate n 'a')

/-- Concrete environment in which every external call fails: both
extractors raise, the embedder raises, the similarity SQL cannot
execute, and the chat model raises.  UTF-8 decoding succeeds. -/
def envAllFail : Env :=
  { processPdf := fun _ => .error "corrupt"
    processDocx := fun _ => .error "bad"
    decodeUtf8 := fun s => .ok s
    split := specSplitText 1000 200
    embed := fun _ => .error "embed down"
    dist := fun _ _ => 0
    searchOk := false
    chat := fun _ => .error "llm down"
    now := 7 }

/-- Concrete environment in which every external call succeeds; the
embedder returns the one-entry vector `[0]` and the distance operator
is constantly zero. -/
def envOk : Env :=
  { processPdf := fun _ => .error "corrupt"
    processDocx := fun _ => .error "bad"
    decodeUtf8 := fun s => .ok s
    split := specSplitText 1000 200
    embed := fun _ => .ok [0]
    dist := fun _ _ => 0
    searchOk := true
    chat := fun _ => .ok "answer"
    now := 7 }

/-- Concrete environment identical to `envOk` except that the
similarity SQL cannot execute, forcing the fallback path. -/
def envNoSearch : Env :=
  { envOk with searchOk := false }

/-- Concrete database: one chat (id 0) with no documents. -/
def dbEmptyChat : DB := ⟨[⟨0, "t", 0⟩], [], [], []⟩

/-- Concrete database: one chat (id 0) owning one document (id 0,
`doc.txt`) with one indexed chunk. -/
def dbOneChunk : DB :=
  ⟨[⟨0, "t", 0⟩], [⟨0, 0, "doc.txt", "c"⟩], [⟨0, 0, "chunktext", 0, [0]⟩], []⟩

/-- Concrete database: one chat (id 0) that already contains a document
named `report.pdf`. -/
def dbReport : DB := ⟨[⟨0, "t", 0⟩], [⟨0, 0, "report.pdf", "c"⟩], [], []⟩

/-- C8, counterexample: the claim says `chunk_text` discards exactly
the pieces whose trimmed length is shorter than 50 characters.  A text
of exactly 50 characters survives splitting as one piece of trimmed
length exactly 50 — not shorter than 50 — yet `chunk_text` discards it,
because the source filter keeps only `len(chunk.strip()) > 50`. -/
theorem chunk_text_discards_exact_fifty :
    (pyStrip (aChars 50)).length = 50 ∧
    aChars 50 ∈ specSplitText 1000 200 (aChars 50) ∧
    chunk_text (specSplitText 1000 200) (aChars 50) = [] :=
  ⟨by decide, by decide, by decide⟩

/-- C8 (amended): `chunk_text` discards exactly those output pieces
whose whitespace-trimmed length is at most 50 characters; consequently
every chunk in the returned sequence is strictly longer than 50 trimmed
characters. -/
theorem chunk_text_length_filter :
    ∀ (splitText : String → List String) (text piece : String),
      (∀ c ∈ chunk_text splitText text, 50 < (pyStrip c).length) ∧
      (piece ∈ splitText text →
        (piece ∈ chunk_text splitText text ↔ 50 < (pyStrip piece).length)) := by
  intro s t p
  refine ⟨fun c hc => ?_, fun hp => ?_⟩
  · exact of_decide_eq_true (List.mem_filter.mp hc).2
  · constructor
    · intro hmem
      exact of_decide_eq_true (List.mem_filter.mp hmem).2
    · intro hlen
      exact List.mem_filter.mpr ⟨hp, decide_eq_true hlen⟩

/-- Witness for `chunk_text_length_filter` at a concrete 51-character
text, which the splitter returns as a single piece. -/
theorem chunk_text_length_filter_witness :
    (aChars 51 ∈ specSplitText 1000 200 (aChars 51)) ∧
    ((aChars 51 ∈ chunk_text (specSplitText 1000 200) (aChars 51)) ↔
      50 < (pyStrip (aChars 51)).length) :=
  ⟨by decide,
    (chunk_text_length_filter (specSplitText 1000 200) (aChars 51)
      (aChars 51)).2 (by decide)⟩

/-- C9: chunking is deterministic — two invocations of `chunk_text`
with equal texts and equal `chunk_size` and `chunk_overlap` parameters
return equal chunk sequences.  The embedding is a pure function of
those arguments because the source consults no randomness or external
state. -/
theorem chunk_text_deterministic :
    ∀ (size₁ size₂ ov₁ ov₂ : Nat) (t₁ t₂ : String),
      size₁ = size₂ → ov₁ = ov₂ → t₁ = t₂ →
      chunk_text (specSplitText size₁ ov₁) t₁
        = chunk_text (specSplitText size₂ ov₂) t₂ := by
  intro size₁ size₂ ov₁ ov₂ t₁ t₂ hs ho ht
  subst hs; subst ho; subst ht; rfl

/-- Witness for `chunk_text_deterministic` at the default parameters
and a concrete text. -/
theorem chunk_text_deterministic_witness :
    chunk_text (specSplitText 1000 200) (aChars 60)
      = chunk_text (specSplitText 1000 200) (aChars 60) :=
  chunk_text_deterministic 1000 1000 200 200 (aChars 60) (aChars 60)
    rfl rfl rfl

/-- Every row selected by the primary similarity query is a chunk of
the database whose `chat_id` is the queried chat. -/
theorem mem_primaryRows {env : Env} {db : DB} {chatId : Nat} {qv : List ℚ}
    {top_k : Nat} {p : DocumentChunk × String}
    (hp : p ∈ primaryRows env db chatId qv top_k) :
    p.1 ∈ db.chunks ∧ p.1.chat_id = chatId := by
  unfold primaryRows at hp
  have h₁ := List.mem_of_mem_take hp
  rw [List.mem_insertionSort] at h₁
  obtain ⟨c, hc, heq⟩ := List.mem_filterMap.mp h₁
  by_cases h : c.chat_id == chatId
  · rw [if_pos h] at heq
    obtain ⟨fn, _, hfc⟩ := Option.map_eq_some'.mp heq
    subst hfc
    exact ⟨hc, by simpa using h⟩
  · rw [if_neg h] at heq
    exact absurd heq (by simp)

/-- Every row fetched by the fallback query is a chunk of the database
whose `chat_id` is the queried chat. -/
theorem mem_fallbackRows {db : DB} {chatId : Nat} {top_k : Nat}
    {c : DocumentChunk} (hc : c ∈ fallbackRows db chatId top_k) :
    c ∈ db.chunks ∧ c.chat_id = chatId := by
  unfold fallbackRows at hc
  have h₁ := List.mem_of_mem_take hc
  have h₂ := List.mem_filter.mp h₁
  exact ⟨h₂.1, by simpa using h₂.2⟩

/-- C3: for every chat and query vector, both the primary similarity
path and the fallback path of `get_relevant_chunks` return only results
originating from chunks whose `chat_id` equals the requested chat;
chunks of any other chat never appear, regardless of the distance
function. -/
theorem get_relevant_chunks_chat_scoped :
    ∀ (env : Env) (query : String) (chatId : Nat) (db : DB) (top_k : Nat)
      (r : RChunk), r ∈ get_relevant_chunks env query chatId db top_k →
      ∃ c ∈ db.chunks, c.chat_id = chatId ∧ r.text = c.chunk_text ∧
        r.chunk_index = c.chunk_index := by
  intro env q chatId db k r hr
  unfold get_relevant_chunks at hr
  split at hr
  · unfold primaryResult at hr
    obtain ⟨p, hp, hrp⟩ := List.mem_map.mp hr
    obtain ⟨hmem, hchat⟩ := mem_primaryRows hp
    exact ⟨p.1, hmem, hchat, by rw [← hrp], by rw [← hrp]⟩
  · unfold fallbackResult at hr
    obtain ⟨c, hc, hrc⟩ := List.mem_map.mp hr
    obtain ⟨hmem, hchat⟩ := mem_fallbackRows hc
    exact ⟨c, hmem, hchat, by rw [← hrc], by rw [← hrc]⟩

/-- Witness for `get_relevant_chunks_chat_scoped`: the fallback result
on a concrete one-chunk database. -/
theorem get_relevant_chunks_chat_scoped_witness :
    ((⟨"chunktext", 0, "unknown", 1/2⟩ : RChunk)
        ∈ get_relevant_chunks envNoSearch "q" 0 dbOneChunk 5) ∧
    ∃ c ∈ dbOneChunk.chunks, c.chat_id = 0 ∧
      (⟨"chunktext", 0, "unknown", 1/2⟩ : RChunk).text = c.chunk_text ∧
      (⟨"chunktext", 0, "unknown", 1/2⟩ : RChunk).chunk_index = c.chunk_index :=
  have h : (⟨"chunktext", 0, "unknown", 1/2⟩ : RChunk)
      ∈ get_relevant_chunks envNoSearch "q" 0 dbOneChunk 5 :=
    List.mem_singleton.mpr rfl
  ⟨h, get_relevant_chunks_chat_scoped envNoSearch "q" 0 dbOneChunk 5 _ h⟩

/-- Sorting by a rational key and taking a prefix yields a sequence
that is pairwise non-decreasing in that key. -/
theorem pairwise_take_insertionSort {α : Type} (key : α → ℚ) (l : List α)
    (k : Nat) :
    List.Pairwise (fun a b => key a ≤ key b)
      ((List.insertionSort (fun a b => key a ≤ key b) l).take k) := by
  haveI : IsTotal α (fun a b => key a ≤ key b) := ⟨fun a b => le_total _ _⟩
  haveI : IsTrans α (fun a b => key a ≤ key b) :=
    ⟨fun _ _ _ hab hbc => le_trans hab hbc⟩
  exact (List.sorted_insertionSort _ l).sublist (List.take_sublist _ _)

/-- C5: the primary similarity result has length at most `top_k`, its
rows are ordered by non-decreasing distance to the query vector
(equivalently its scores are non-increasing), and each reported score
equals one minus the corresponding distance. -/
theorem primary_search_ordering :
    ∀ (env : Env) (db : DB) (chatId : Nat) (qv : List ℚ) (top_k : Nat),
      (primaryResult env db chatId qv top_k).length ≤ top_k ∧
      List.Pairwise
        (fun p₁ p₂ => env.dist p₁.1.embedding qv ≤ env.dist p₂.1.embedding qv)
        (primaryRows env db chatId qv top_k) ∧
      (primaryResult env db chatId qv top_k).map (·.similarity_score)
        = (primaryRows env db chatId qv top_k).map
            (fun p => 1 - env.dist p.1.embedding qv) ∧
      List.Pairwise (fun a b : ℚ => b ≤ a)
        ((primaryResult env db chatId qv top_k).map (·.similarity_score)) := by
  intro env db chatId qv k
  have hpw : List.Pairwise
      (fun p₁ p₂ => env.dist p₁.1.embedding qv ≤ env.dist p₂.1.embedding qv)
      (primaryRows env db chatId qv k) :=
    @pairwise_take_insertionSort (DocumentChunk × String)
      (fun p => env.dist p.1.embedding qv) _ k
  have hmap : (primaryResult env db chatId qv k).map (·.similarity_score)
      = (primaryRows env db chatId qv k).map
          (fun p => 1 - env.dist p.1.embedding qv) := by
    unfold primaryResult
    rw [List.map_map]
    rfl
  refine ⟨?_, hpw, hmap, ?_⟩
  · unfold primaryResult primaryRows
    rw [List.length_map]
    exact List.length_take_le _ _
  · rw [hmap, List.pairwise_map]
    exact hpw.imp (fun h => sub_le_sub_left h 1)

/-- C7: when the scoped similarity query cannot execute (the embedding
call raises or the SQL cannot run), `get_relevant_chunks` does not
fail: it returns the fallback list of at most `top_k` chunks of the
requested chat, each with the fixed sentinel score one half, and the
underlying error never reaches the caller. -/
theorem get_relevant_chunks_fallback :
    ∀ (env : Env) (query : String) (chatId : Nat) (db : DB) (top_k : Nat),
      (env.searchOk = false ∨ ∃ e, env.embed query = .error e) →
      get_relevant_chunks env query chatId db top_k
        = fallbackResult db chatId top_k ∧
      (get_relevant_chunks env query chatId db top_k).length ≤ top_k ∧
      ∀ r ∈ get_relevant_chunks env query chatId db top_k,
        r.similarity_score = 1/2 ∧
        ∃ c ∈ db.chunks, c.chat_id = chatId ∧ r.text = c.chunk_text ∧
          r.chunk_index = c.chunk_index := by
  intro env q chatId db k hfail
  have hfb : get_relevant_chunks env q chatId db k
      = fallbackResult db chatId k := by
    unfold get_relevant_chunks
    rcases hfail with hs | ⟨e, he⟩
    · cases hemb : env.embed q <;> rw [hs]
    · rw [he]
  refine ⟨hfb, ?_, ?_⟩
  · rw [hfb]
    unfold fallbackResult fallbackRows
    rw [List.length_map]
    exact List.length_take_le _ _
  · intro r hr
    rw [hfb] at hr
    unfold fallbackResult at hr
    obtain ⟨c, hc, hrc⟩ := List.mem_map.mp hr
    obtain ⟨hmem, hchat⟩ := mem_fallbackRows hc
    exact ⟨by rw [← hrc], c, hmem, hchat, by rw [← hrc], by rw [← hrc]⟩

/-- Witness for `get_relevant_chunks_fallback` on a concrete database
and an environment whose similarity SQL is unavailable. -/
theorem get_relevant_chunks_fallback_witness :
    (envNoSearch.searchOk = false ∨
      ∃ e, envNoSearch.embed "q" = .error e) ∧
    get_relevant_chunks envNoSearch "q" 0 dbOneChunk 5
      = fallbackResult dbOneChunk 0 5 :=
  ⟨Or.inl rfl,
    (get_relevant_chunks_fallback envNoSearch "q" 0 dbOneChunk 5
      (Or.inl rfl)).1⟩

/-- When the chat owns no chunks, both retrieval paths return the
empty list. -/
theorem get_relevant_chunks_nil {env : Env} {q : String} {chatId : Nat}
    {db : DB} {k : Nat}
    (h : db.chunks.filter (fun c => c.chat_id == chatId) = []) :
    get_relevant_chunks env q chatId db k = [] := by
  have hfilter : ∀ c ∈ db.chunks, ¬((c.chat_id == chatId) = true) := by
    simpa using List.filter_eq_nil_iff.mp h
  unfold get_relevant_chunks
  split
  · unfold primaryResult primaryRows
    have hnone : db.chunks.filterMap (fun c =>
        if c.chat_id == chatId then (chunkFilename db c).map (fun fn => (c, fn))
        else none) = ([] : List (DocumentChunk × String)) := by
      rw [List.filterMap_eq_nil_iff]
      intro c hc
      rw [if_neg (hfilter c hc)]
    rw [hnone]
    simp
  · unfold fallbackResult fallbackRows
    rw [h]
    simp

/-- When the chat owns at least one chunk and every chunk has a parent
document, both retrieval paths return a non-empty list (for a positive
`top_k`). -/
theorem get_relevant_chunks_ne_nil {env : Env} {q : String} {chatId : Nat}
    {db : DB} {k : Nat} (hk : 0 < k)
    (h : db.chunks.filter (fun c => c.chat_id == chatId) ≠ [])
    (hwf : ∀ c ∈ db.chunks, ∃ d ∈ db.documents, d.id = c.document_id) :
    get_relevant_chunks env q chatId db k ≠ [] := by
  have hlenf : 0 < (db.chunks.filter (fun c => c.chat_id == chatId)).length :=
    List.length_pos.mpr h
  unfold get_relevant_chunks
  split
  · unfold primaryResult primaryRows
    obtain ⟨c, hcf⟩ := List.exists_mem_of_ne_nil _ h
    obtain ⟨hcm, hcb⟩ := List.mem_filter.mp hcf
    obtain ⟨d, hd, hdid⟩ := hwf c hcm
    have hfind : (db.documents.find? (fun d' => d'.id == c.document_id)).isSome := by
      rw [List.find?_isSome]
      exact ⟨d, hd, by simpa using hdid⟩
    obtain ⟨d', hd'⟩ := Option.isSome_iff_exists.mp hfind
    have hfn : chunkFilename db c = some d'.filename := by
      unfold chunkFilename
      rw [hd']
      rfl
    have hmemj : (c, d'.filename) ∈ db.chunks.filterMap (fun c' =>
        if c'.chat_id == chatId then (chunkFilename db c').map (fun f => (c', f))
        else none) := by
      apply List.mem_filterMap.mpr
      refine ⟨c, hcm, ?_⟩
      rw [if_pos hcb, hfn]
      rfl
    intro hnil
    have hlen := congrArg List.length hnil
    rw [List.length_map, List.length_take, List.length_insertionSort] at hlen
    have hjpos : 0 < (db.chunks.filterMap (fun c' =>
        if c'.chat_id == chatId then (chunkFilename db c').map (fun f => (c', f))
        else none)).length := List.length_pos.mpr (List.ne_nil_of_mem hmemj)
    simp only [List.length_nil] at hlen
    omega
  · unfold fallbackResult fallbackRows
    intro hnil
    have hlen := congrArg List.length hnil
    rw [List.length_map, List.length_take, List.length_nil] at hlen
    omega

/-- C4: querying a chat with zero indexed chunks returns the fixed
no-documents response and records no `ChatMessage`; querying a chat
with at least one indexed chunk (in a database where every chunk has
its parent document) returns the generated response and appends exactly
one `ChatMessage` whose `message` field is the query text. -/
theorem query_documents_behavior :
    ∀ (env : Env) (db : DB) (chatId : Nat) (query : String),
      (db.chunks.filter (fun c => c.chat_id == chatId) = [] →
        query_documents env db chatId query = (db, ⟨noDocsResponse, 0⟩)) ∧
      (db.chunks.filter (fun c => c.chat_id == chatId) ≠ [] →
        (∀ c ∈ db.chunks, ∃ d ∈ db.documents, d.id = c.document_id) →
        (query_documents env db chatId query).1.messages
          = db.messages
            ++ [⟨chatId, query,
                  (query_documents env db chatId query).2.response⟩] ∧
        (query_documents env db chatId query).2.response
          = generate_response env query
              (get_relevant_chunks env query chatId db 5)) := by
  intro env db chatId q
  constructor
  · intro h
    unfold query_documents
    rw [get_relevant_chunks_nil h]
    rfl
  · intro hne hwf
    have h5 : get_relevant_chunks env q chatId db 5 ≠ [] :=
      get_relevant_chunks_ne_nil (by omega) hne hwf
    have hemp : (get_relevant_chunks env q chatId db 5).isEmpty = false := by
      simpa [List.isEmpty_iff] using h5
    unfold query_documents
    simp [hemp]

/-- Witness for `query_documents_behavior` on a concrete one-chunk
database: the query appends exactly one message holding the query
text. -/
theorem query_documents_behavior_witness :
    (dbOneChunk.chunks.filter (fun c => c.chat_id == 0) ≠ []) ∧
    (∀ c ∈ dbOneChunk.chunks, ∃ d ∈ dbOneChunk.documents,
      d.id = c.document_id) ∧
    (query_documents envOk dbOneChunk 0 "q").1.messages
      = dbOneChunk.messages
        ++ [⟨0, "q", (query_documents envOk dbOneChunk 0 "q").2.response⟩] :=
  ⟨by decide, by decide,
    ((query_documents_behavior envOk dbOneChunk 0 "q").2
      (by decide) (by decide)).1⟩

/-- C6: uploading a single file whose filename already exists in the
chat (case-sensitive exact match) yields that file in the skipped list
with reason "File already exists in this chat", creates or overwrites
no `Document`, and leaves the database — in particular the document
count of the chat — unchanged. -/
theorem upload_duplicate_skipped :
    ∀ (env : Env) (db : DB) (chatId : Nat) (f : UploadFile),
      (db.chats.find? (fun c => c.id == chatId)).isSome →
      f.filename ∈ existingFilenames db chatId →
      upload_documents env db chatId [f]
        = (db, .ok ([], [⟨f.filename, "File already exists in this chat"⟩])) := by
  intro env db chatId f hchat hdup
  obtain ⟨c, hc⟩ := Option.isSome_iff_exists.mp hchat
  unfold upload_documents
  rw [hc]
  simp [uploadLoop, hdup]

/-- Witness for `upload_duplicate_skipped`: re-uploading `report.pdf`
to a chat that already contains it. -/
theorem upload_duplicate_skipped_witness :
    ((dbReport.chats.find? (fun c => c.id == 0)).isSome) ∧
    ("report.pdf" ∈ existingFilenames dbReport 0) ∧
    upload_documents envOk dbReport 0 [⟨"report.pdf", "x"⟩]
      = (dbReport,
          .ok ([], [⟨"report.pdf", "File already exists in this chat"⟩])) :=
  ⟨by decide, by decide,
    upload_duplicate_skipped envOk dbReport 0 ⟨"report.pdf", "x"⟩
      (by decide) (by decide)⟩

/-- C2, counterexample: in a two-file batch whose first file fails
extraction, the upload aborts with an HTTP 500 error instead of a skip
entry, and the healthy sibling `good.txt` is never processed — the
database still has no documents. -/
theorem upload_batch_abort_counterexample :
    upload_documents envAllFail dbEmptyChat 0
        [⟨"bad.pdf", "x"⟩, ⟨"good.txt", aChars 60⟩]
      = (dbEmptyChat, .error "Error processing bad.pdf: corrupt") ∧
    (upload_documents envAllFail dbEmptyChat 0
        [⟨"bad.pdf", "x"⟩, ⟨"good.txt", aChars 60⟩]).1.documents = [] :=
  ⟨rfl, rfl⟩

/-- C2 (amended): duplicate-filename and unsupported-type conditions
are collected per file in the skipped list and processing continues
with the remaining files; but an extraction failure on one file raises
an HTTP 500 error that aborts the batch — the remaining sibling files
are not processed and the persisted state stays at the last commit. -/
theorem upload_per_file_error_policy :
    ∀ (env : Env) (chatId : Nat) (existing : List String) (db : DB)
      (f : UploadFile) (rest : List UploadFile) (up : List UploadInfo)
      (sk : List SkipInfo),
      (f.filename ∈ existing →
        uploadLoop env chatId existing db (f :: rest) up sk
          = uploadLoop env chatId existing db rest up
              (sk ++ [⟨f.filename, "File already exists in this chat"⟩])) ∧
      (f.filename ∉ existing → extractText env f = none →
        uploadLoop env chatId existing db (f :: rest) up sk
          = uploadLoop env chatId existing db rest up
              (sk ++ [⟨f.filename, "Unsupported file type"⟩])) ∧
      (∀ e, f.filename ∉ existing → extractText env f = some (.error e) →
        uploadLoop env chatId existing db (f :: rest) up sk
          = (db, .error ("Error processing " ++ f.filename ++ ": " ++ e))) := by
  intro env chatId existing db f rest up sk
  refine ⟨fun hdup => ?_, fun hnd hext => ?_, fun e hnd hext => ?_⟩
  · simp [uploadLoop, hdup]
  · simp [uploadLoop, hnd, hext]
  · simp [uploadLoop, hnd, hext]

/-- Witness for `upload_per_file_error_policy`: a concrete file whose
extraction fails aborts the loop with the 500 error detail. -/
theorem upload_per_file_error_policy_witness :
    ("bad.pdf" ∉ (["old.txt"] : List String)) ∧
    extractText envAllFail ⟨"bad.pdf", "x"⟩ = some (.error "corrupt") ∧
    uploadLoop envAllFail 0 ["old.txt"] dbEmptyChat [⟨"bad.pdf", "x"⟩] [] []
      = (dbEmptyChat, .error "Error processing bad.pdf: corrupt") :=
  ⟨by decide, rfl,
    (upload_per_file_error_policy envAllFail 0 ["old.txt"] dbEmptyChat
      ⟨"bad.pdf", "x"⟩ [] [] []).2.2 "corrupt" (by decide) rfl⟩

/-- Embedding the chunks of a document succeeds only with one vector
per chunk. -/
theorem embedChunks_ok_length :
    ∀ (embed : String → Except String (List ℚ)) (cs : List String)
      (embs : List (List ℚ)), embedChunks embed cs = .ok embs →
      embs.length = cs.length := by
  intro embed cs
  induction cs with
  | nil =>
    intro embs h
    simp only [embedChunks, Except.ok.injEq] at h
    rw [← h]
    rfl
  | cons c cs ih =>
    intro embs h
    unfold embedChunks at h
    cases hc : embed c with
    | error e => rw [hc] at h; exact absurd h (by simp)
    | ok v =>
      rw [hc] at h
      cases hcs : embedChunks embed cs with
      | error e => rw [hcs] at h; exact absurd h (by simp)
      | ok vs =>
        rw [hcs] at h
        have hvs : v :: vs = embs := by simpa using h
        rw [← hvs]
        simp [ih vs hcs]

/-- The staged chunk rows of a document are in bijection with its
chunks when embedding succeeded. -/
theorem buildChunks_length :
    ∀ (chatId docId : Nat) (cs : List String) (embs : List (List ℚ)),
      embs.length = cs.length →
      (buildChunks chatId docId cs embs).length = cs.length := by
  intro chatId docId cs embs h
  unfold buildChunks
  rw [List.length_map, List.enum_length, List.length_zip, h, Nat.min_self]

/-- C1 (amended): the `Document` row is committed before embedding
starts, so it is persisted even when ingestion then fails; the chunk
rows themselves are all-or-nothing — on an embedding failure the
persisted chunk table is unchanged, and on success exactly one row per
chunk is appended. -/
theorem ingest_document_commit_granularity :
    ∀ (env : Env) (db : DB) (chatId : Nat) (fn tx : String),
      (ingestDocument env db chatId fn tx).1.documents
        = db.documents ++ [⟨freshDocId db, chatId, fn, tx⟩] ∧
      (((ingestDocument env db chatId fn tx).1.chunks = db.chunks ∧
          ∃ e, (ingestDocument env db chatId fn tx).2 = .error e) ∨
        (∃ embs,
          embedChunks env.embed (chunk_text env.split tx) = .ok embs ∧
          (ingestDocument env db chatId fn tx).1.chunks
            = db.chunks
              ++ buildChunks chatId (freshDocId db) (chunk_text env.split tx)
                  embs ∧
          (buildChunks chatId (freshDocId db) (chunk_text env.split tx)
              embs).length
            = (chunk_text env.split tx).length)) := by
  intro env db chatId fn tx
  cases h : embedChunks env.embed (chunk_text env.split tx) with
  | error e =>
    have h1 : ingestDocument env db chatId fn tx
        = ({ db with
              documents := db.documents ++ [⟨freshDocId db, chatId, fn, tx⟩] },
            .error e) := by
      simp only [ingestDocument, h]
    rw [h1]
    exact ⟨rfl, Or.inl ⟨rfl, e, rfl⟩⟩
  | ok embs =>
    have h1 : ingestDocument env db chatId fn tx
        = ({ db with
              documents := db.documents ++ [⟨freshDocId db, chatId, fn, tx⟩],
              chunks := db.chunks
                ++ buildChunks chatId (freshDocId db) (chunk_text env.split tx)
                    embs },
            .ok ⟨freshDocId db, fn, (chunk_text env.split tx).length⟩) := by
      simp only [ingestDocument, h]
    rw [h1]
    exact ⟨rfl, Or.inr ⟨embs, rfl,
      rfl, buildChunks_length _ _ _ _ (embedChunks_ok_length _ _ _ h)⟩⟩

/-- C1, counterexample: uploading a 60-character text file in an
environment whose embedder fails leaves the `Document` row persisted
(first commit) while none of its chunks are — the text does produce one
chunk, so the document is persisted with partial (empty) chunk
coverage, contradicting document-level atomicity. -/
theorem upload_atomicity_counterexample :
    (chunk_text (specSplitText 1000 200) (aChars 60)).length = 1 ∧
    (upload_documents envAllFail dbEmptyChat 0
        [⟨"a.txt", aChars 60⟩]).1.documents.length = 1 ∧
    (upload_documents envAllFail dbEmptyChat 0
        [⟨"a.txt", aChars 60⟩]).1.chunks = [] ∧
    (upload_documents envAllFail dbEmptyChat 0 [⟨"a.txt", aChars 60⟩]).2
      = .error "Error processing a.txt: embed down" :=
  ⟨rfl, rfl, rfl, rfl⟩

/-- C10: the duplicate-filename check compares only against the
filenames persisted before the batch began, so a batch containing two
files with the same new filename inserts both as separate `Document`
rows and reports both as uploaded. -/
theorem upload_duplicate_within_batch :
    ∀ (env : Env) (db : DB) (chatId : Nat) (f₁ f₂ : UploadFile)
      (t₁ t₂ : String) (es₁ es₂ : List (List ℚ)),
      (db.chats.find? (fun c => c.id == chatId)).isSome →
      f₁.filename = f₂.filename →
      f₁.filename ∉ existingFilenames db chatId →
      extractText env f₁ = some (.ok t₁) →
      extractText env f₂ = some (.ok t₂) →
      embedChunks env.embed (chunk_text env.split t₁) = .ok es₁ →
      embedChunks env.embed (chunk_text env.split t₂) = .ok es₂ →
      (upload_documents env db chatId [f₁, f₂]).1.documents
        = db.documents
          ++ [⟨db.documents.length, chatId, f₁.filename, t₁⟩,
              ⟨db.documents.length + 1, chatId, f₂.filename, t₂⟩] ∧
      (upload_documents env db chatId [f₁, f₂]).2
        = .ok ([⟨db.documents.length, f₁.filename,
                  (chunk_text env.split t₁).length⟩,
                ⟨db.documents.length + 1, f₂.filename,
                  (chunk_text env.split t₂).length⟩], []) := by
  intro env db chatId f₁ f₂ t₁ t₂ es₁ es₂ hchat hname hnot hex₁ hex₂ hemb₁ hemb₂
  obtain ⟨c, hc⟩ := Option.isSome_iff_exists.mp hchat
  have hnot₂ : f₂.filename ∉ existingFilenames db chatId := hname ▸ hnot
  unfold upload_documents
  rw [hc]
  simp [uploadLoop, hnot, hnot₂, hex₁, hex₂, ingestDocument, freshDocId,
    hemb₁, hemb₂, List.length_append]

/-- Witness for `upload_duplicate_within_batch`: a batch of two files
both named `a.txt`, new to the chat, both inserted. -/
theorem upload_duplicate_within_batch_witness :
    ("a.txt" ∉ existingFilenames dbEmptyChat 0) ∧
    (upload_documents envOk dbEmptyChat 0
        [⟨"a.txt", aChars 60⟩, ⟨"a.txt", aChars 60⟩]).1.documents
      = dbEmptyChat.documents
        ++ [⟨0, 0, "a.txt", aChars 60⟩, ⟨1, 0, "a.txt", aChars 60⟩] :=
  ⟨by decide,
    (upload_duplicate_within_batch envOk dbEmptyChat 0
      ⟨"a.txt", aChars 60⟩ ⟨"a.txt", aChars 60⟩ (aChars 60) (aChars 60)
      [[0]] [[0]] (by decide) rfl (by decide) rfl rfl rfl rfl).1⟩

end RAGSpec
